import Mathlib

/-
Verification development for the MAX32650 UART driver
(drivers/platform/maxim/max32650/maxim_uart.c).

The driver is embedded shallowly: each C function becomes a Lean function
over explicit state.  Pointers are modelled as Option values (none = NULL);
machine integers are modelled by Nat and Int (no value in this driver ever
approaches an overflow boundary: lengths are caller counts and error codes
are small negatives).  Vendor-SDK and library collaborators that live
outside this source file (the lf256fifo byte queue, the MXC asynchronous
transaction layer, the interrupt controller, the allocator) are modelled
from the specification, and each such definition carries a doc comment
saying so.
-/

namespace MaximUart

/-- errno value EINVAL (22), returned by the driver as -EINVAL. -/
def EINVAL : Int := 22

/-- errno value EAGAIN (11), returned by the driver as -EAGAIN. -/
def EAGAIN : Int := 11

/-- errno value EBUSY (16), returned by the driver as -EBUSY. -/
def EBUSY : Int := 16

/-- errno value ENOMEM (12), returned by the driver as -ENOMEM. -/
def ENOMEM : Int := 12

/-- errno value EIO (5), returned by the driver as an I/O error; named in
lowercase here. -/
def eio : Int := 5

/-- MXC SDK success code E_SUCCESS (0). -/
def E_SUCCESS : Int := 0

/-- MXC SDK success code E_NO_ERROR (0). -/
def E_NO_ERROR : Int := 0

/-- MXC SDK busy code E_BUSY. -/
def E_BUSY : Int := -6

/-- Hardware transmit FIFO depth used by the blocking write chunking loop
(MXC_UART_FIFO_DEPTH). -/
def MXC_UART_FIFO_DEPTH : Nat := 32

/-- Modelled from the spec: the lf256fifo byte queue (no_os_lf256fifo,
declared in no_os_lf256fifo.h but implemented outside this source tree).
Per the spec it is a fixed-capacity FIFO of bytes; we model the contents
as a list, oldest byte first. -/
structure Fifo where
  buf : List Nat
deriving Repr, DecidableEq

/-- Modelled from the spec: the byte queue capacity is fixed at 256
entries in the reference behavior. -/
def fifoCapacity : Nat := 256

/-- Modelled from the spec: lf256fifo_write, the single-producer push.
Returns 0 and appends the byte when capacity is not exhausted; returns a
nonzero error and leaves the queue unchanged when full. -/
def lf256fifo_write (f : Fifo) (b : Nat) : Int × Fifo :=
  if f.buf.length < fifoCapacity then (0, ⟨f.buf ++ [b]⟩) else (-1, f)

/-- Modelled from the spec: lf256fifo_read, the single-consumer pop.
Returns 0 and the oldest byte when data is buffered; returns a nonzero
error when empty. -/
def lf256fifo_read (f : Fifo) : Int × Option Nat × Fifo :=
  match f.buf with
  | [] => (-1, none, f)
  | b :: rest => (0, some b, ⟨rest⟩)

/-- The for-loop body of max_uart_read on the rx_fifo path: up to
bytes_number iterations of lf256fifo_read, stopping at the first failed
pop.  Returns the loop counter i at exit, the bytes delivered into the
caller buffer, and the queue left behind. -/
def readFifoLoop : Nat → Fifo → Nat × List Nat × Fifo
  | 0, f => (0, [], f)
  | n + 1, f =>
    let r := lf256fifo_read f
    if r.1 = 0 then
      let p := readFifoLoop n r.2.2
      (p.1 + 1, r.2.1.getD 0 :: p.2.1, p.2.2)
    else (0, [], f)

/-- Result record of the blocking read.  descAfter is the descriptor (and
its rx_fifo) as left by the call; delivered is the content written into
the caller buffer; hwIssued records whether a direct hardware read
(MXC_UART_Read) was issued. -/
structure ReadResult where
  ret : Int
  delivered : List Nat
  descAfter : Option (Option Fifo)
  hwIssued : Bool
deriving Repr, DecidableEq

/-- Shallow embedding of max_uart_read (blocking read).  The descriptor is
modelled by its rx_fifo field (outer Option: NULL descriptor pointer;
inner Option: NULL rx_fifo, meaning asynchronous-receive mode disabled).
The caller buffer is a pointer modelled as Option Nat.  The direct
hardware path (MXC_UART_Read, vendor SDK) is modelled by an oracle: hwOk
says whether the blocking hardware read succeeds, hwBytes the bytes it
delivers. -/
def max_uart_read (desc : Option (Option Fifo)) (data : Option Nat)
    (bytes_number : Nat) (hwOk : Bool) (hwBytes : List Nat) : ReadResult :=
  if desc = none ∨ data = none ∨ bytes_number = 0 then
    ⟨-EINVAL, [], desc, false⟩
  else
    match desc with
    | some (some f) =>
      let p := readFifoLoop bytes_number f
      if p.1 = 0 then ⟨-EAGAIN, p.2.1, some (some p.2.2), false⟩
      else ⟨(p.1 : Int), p.2.1, some (some p.2.2), false⟩
    | some none =>
      if hwOk then ⟨(bytes_number : Int), hwBytes.take bytes_number, some none, true⟩
      else ⟨-eio, [], some none, true⟩
    | none => ⟨-EINVAL, [], desc, false⟩

/-- The while-loop of max_uart_write: bytes_number remaining, transfered
accumulated so far, idx the chunk index fed to the per-chunk hardware
oracle hwOk (MXC_UART_Write result).  Returns the C return value
(transfered on success, -EIO on a chunk fault) and the trace of chunk
sizes handed to the hardware. -/
def writeChunks (n t idx : Nat) (hwOk : Nat → Bool) : Int × List Nat :=
  if h : n = 0 then ((t : Int), [])
  else
    let block := min MXC_UART_FIFO_DEPTH n
    if hwOk idx then
      let p := writeChunks (n - block) (t + block) (idx + 1) hwOk
      (p.1, block :: p.2)
    else (-eio, [block])
termination_by n
decreasing_by
  have hpos : 0 < n := Nat.pos_of_ne_zero h
  have hb : 0 < min MXC_UART_FIFO_DEPTH n := by
    simp only [MXC_UART_FIFO_DEPTH]
    omega
  omega

/-- Result record of the blocking write: return value, descriptor left
untouched, and the trace of chunk sizes handed to the hardware. -/
structure WriteResult where
  ret : Int
  descAfter : Option (Option Fifo)
  chunks : List Nat
deriving Repr, DecidableEq

/-- Shallow embedding of max_uart_write (blocking write).  The source
splits data into chunks of at most MXC_UART_FIFO_DEPTH, spins on the
TX-empty status flag, and performs a direct synchronous hardware write per
chunk; it never references desc->rx_fifo.  The caller buffer is modelled
as an optional list of bytes (none = NULL). -/
def max_uart_write (desc : Option (Option Fifo)) (data : Option (List Nat))
    (bytes_number : Nat) (hwOk : Nat → Bool) : WriteResult :=
  if desc = none ∨ data = none ∨ bytes_number = 0 then
    ⟨-EINVAL, desc, []⟩
  else
    let p := writeChunks bytes_number 0 0 hwOk
    ⟨p.1, desc, p.2⟩

/-- The per-instance asynchronous transaction record mxc_uart_req_t, one
slot of the uart_irq_state array.  Buffers are pointers modelled as
Option Nat (a pointer identity); hasCallback records that the callback
field was set to max_uart_callback. -/
structure MxcUartReq where
  uart : Option Nat
  rxData : Option Nat
  rxLen : Nat
  txData : Option Nat
  txLen : Nat
  rxCnt : Nat
  txCnt : Nat
  hasCallback : Bool
deriving Repr, DecidableEq

/-- Zero-initialized transaction record, as the uart_irq_state global
array starts in C. -/
def req0 : MxcUartReq := ⟨none, none, 0, none, 0, 0, 0, false⟩

/-- The driver state for one UART instance: desc->device_id, the
desc->rx_fifo byte queue (none when asynchronous-receive mode is off),
the uart_irq_state slot for this instance, whether the MXC asynchronous
layer holds an in-flight transaction for this instance (hwBusy), the
global is_callback flag, and the static one-byte scratch variable c. -/
structure DriverState where
  device_id : Nat
  rxFifo : Option Fifo
  req : MxcUartReq
  hwBusy : Bool
  isCallback : Bool
  scratch : Nat
deriving Repr, DecidableEq

/-- The designated pointer identity of the static scratch byte c, whose
address the driver passes as the receive buffer of the refill read. -/
def scratchPtr : Nat := 0

/-- Modelled from the spec: MXC_UART_TransactionAsync (vendor SDK, outside
this source tree).  Per the AsyncEngine state machine of the spec, a
submission while a transaction is in flight for the instance fails
E_BUSY and changes nothing; a submission while idle succeeds and moves
the instance to in-flight. -/
def MXC_UART_TransactionAsync (busy : Bool) : Int × Bool :=
  if busy then (E_BUSY, busy) else (E_SUCCESS, true)

/-- Shallow embedding of max_uart_read_nonblocking.  descNull models a
NULL desc pointer (the rest of the descriptor lives in s); data is the
caller buffer pointer.  The uart_irq_state slot is overwritten field by
field exactly as in the source (txCnt is not reset on the read path),
then, unless is_callback is set, the transaction is submitted to the MXC
asynchronous layer. -/
def max_uart_read_nonblocking (s : DriverState) (descNull : Bool)
    (data : Option Nat) (bytes_number : Nat) : Int × DriverState :=
  if descNull ∨ data = none ∨ bytes_number = 0 then (-EINVAL, s)
  else
    let req := { s.req with
      uart := some s.device_id,
      rxData := data, rxLen := bytes_number,
      txData := none, txLen := 0,
      rxCnt := 0, hasCallback := true }
    let s1 := { s with req := req }
    if ¬ s1.isCallback then
      let r := MXC_UART_TransactionAsync s1.hwBusy
      if r.1 = E_BUSY then (-EBUSY, { s1 with hwBusy := r.2 })
      else (0, { s1 with hwBusy := r.2 })
    else (0, s1)

/-- Shallow embedding of max_uart_write_nonblocking.  Mirrors the read
path with the transmit fields (rxCnt is not reset on the write path). -/
def max_uart_write_nonblocking (s : DriverState) (descNull : Bool)
    (data : Option Nat) (bytes_number : Nat) : Int × DriverState :=
  if descNull ∨ data = none ∨ bytes_number = 0 then (-EINVAL, s)
  else
    let req := { s.req with
      uart := some s.device_id,
      txData := data, txLen := bytes_number,
      rxData := none, rxLen := 0,
      txCnt := 0, hasCallback := true }
    let s1 := { s with req := req }
    if ¬ s1.isCallback then
      let r := MXC_UART_TransactionAsync s1.hwBusy
      if r.1 = E_BUSY then (-EBUSY, { s1 with hwBusy := r.2 })
      else (0, { s1 with hwBusy := r.2 })
    else (0, s1)

/-- Shallow embedding of uart_rx_callback: push the scratch byte into the
rx_fifo via lf256fifo_write (the return value is discarded by the
source), then re-submit a one-byte receive with the scratch address as
buffer.  The source dereferences d->rx_fifo unconditionally; the callback
is only ever registered in asynchronous-receive mode where rx_fifo is
non-null, so the none branch (left as a no-op here) is unreachable in
the driver. -/
def uart_rx_callback (s : DriverState) : DriverState :=
  let fifo := match s.rxFifo with
    | some f => some (lf256fifo_write f s.scratch).2
    | none => none
  let s1 := { s with rxFifo := fifo }
  (max_uart_read_nonblocking s1 false (some scratchPtr) 1).2

/-- Modelled from the spec: hardware completion of the outstanding
one-byte receive.  The interrupt/event layer stores the received byte b
in the scratch buffer, the transaction leaves the in-flight state, and
the registered completion handler uart_rx_callback runs. -/
def on_rx_complete (s : DriverState) (b : Nat) : DriverState :=
  uart_rx_callback { s with scratch := b, hwBusy := false }

/-- UART parity enumeration of the portable layer (no_os_uart.h, outside
this source tree); INVALID stands for any unrecognized value, which the
switch in max_uart_init sends to its default case. -/
inductive UartParity
  | NO | MARK | SPACE | ODD | EVEN | INVALID
deriving Repr, DecidableEq

/-- UART character-size enumeration; INVALID stands for any unrecognized
value. -/
inductive UartSize
  | CS_5 | CS_6 | CS_7 | CS_8 | INVALID
deriving Repr, DecidableEq

/-- UART stop-bits enumeration; INVALID stands for any unrecognized
value. -/
inductive UartStop
  | STOP_1 | STOP_2 | INVALID
deriving Repr, DecidableEq

/-- UART flow-control enumeration of the Maxim extra parameters; INVALID
stands for any unrecognized value. -/
inductive UartFlow
  | DIS | LOW | HIGH | INVALID
deriving Repr, DecidableEq

/-- The init parameters reaching max_uart_init: no_os_uart_init_param
plus the flow field of its max_uart_init_param extra.  extraNull models
param->extra == NULL. -/
structure NoOsUartInitParam where
  device_id : Nat
  baud_rate : Nat
  parity : UartParity
  size : UartSize
  stop : UartStop
  flow : UartFlow
  asynchronous_rx : Bool
  extraNull : Bool
deriving Repr, DecidableEq

/-- Modelled from the spec: outcomes of the external collaborators called
by max_uart_init, one Boolean per call site (allocator, vendor
configuration calls, fifo creation, interrupt controller).  true means
the call succeeds. -/
structure InitOracle where
  callocDescOk : Bool
  callocExtraOk : Bool
  uartInitOk : Bool
  setDataSizeOk : Bool
  setParityOk : Bool
  setStopBitsOk : Bool
  setFlowCtrlOk : Bool
  fifoInitOk : Bool
  irqCtrlInitOk : Bool
  irqRegisterOk : Bool
  irqEnableOk : Bool
deriving Repr, DecidableEq

/-- Observable outcome of max_uart_init.  The allocation flags say what
is still allocated when init returns (descriptor, extra state, byte
queue, interrupt controller); callbackRegistered and irqEnabled whether a
handler is still registered and its line enabled; outDescAssigned whether
the *desc output pointer was written; st the per-instance driver state
(meaningful on success). -/
structure InitOutcome where
  ret : Int
  descAllocated : Bool
  extraAllocated : Bool
  fifoAllocated : Bool
  irqCtrlAllocated : Bool
  callbackRegistered : Bool
  irqEnabled : Bool
  outDescAssigned : Bool
  st : DriverState
deriving Repr, DecidableEq

/-- Driver state placeholder reported for failed init calls (the
descriptor is freed, so no per-instance state survives). -/
def st0 : DriverState := ⟨0, none, req0, false, false, 0⟩

/-- Outcome of an init failure before any allocation (or at the very
first one): nothing allocated, *desc untouched. -/
def initNoEffect (r : Int) : InitOutcome :=
  ⟨r, false, false, false, false, false, false, false, st0⟩

/-- Outcome of goto error_desc: the descriptor is freed; nothing else was
allocated. -/
def initErrorDesc (r : Int) : InitOutcome :=
  ⟨r, false, false, false, false, false, false, false, st0⟩

/-- Outcome of goto error_max: extra state and descriptor are freed.
Reached only before *desc is assigned. -/
def initErrorMax (r : Int) : InitOutcome :=
  ⟨r, false, false, false, false, false, false, false, st0⟩

/-- Outcome of goto error_uart: hardware shutdown, then extra state and
descriptor freed.  outAssigned records whether the jump happened after
the *desc assignment, and fifoAlloc whether a created byte queue is left
behind (the error path never destroys it). -/
def initErrorUart (r : Int) (outAssigned fifoAlloc : Bool) : InitOutcome :=
  ⟨r, false, false, fifoAlloc, false, false, false, outAssigned, st0⟩

/-- Outcome of goto error_nvic: the interrupt controller is removed
(modelled from the spec as also dropping its registrations), then the
error_uart cleanup runs.  Reached only after *desc was assigned and the
byte queue created, neither of which is undone. -/
def initErrorNvic (r : Int) : InitOutcome :=
  ⟨r, false, false, true, false, false, false, true, st0⟩

/-- Shallow embedding of max_uart_init.  The control flow is the goto
chain of the source: parameter checks, two allocations, the four
enumeration switches in source order, MXC_UART_Init, pin configuration
(which fails exactly when device_id is not 0, 1 or 2), the four
hardware-configuration calls, the *desc assignment, and, when
asynchronous-receive mode is requested, fifo creation, interrupt
controller setup, callback registration, interrupt enable and the first
one-byte receive submission.  Collaborator results come from the oracle;
failing collaborators are modelled as returning a representative nonzero
code (-ENOMEM for allocations and creations, -EINVAL where the source
maps any failure to -EINVAL). -/
def max_uart_init (param : Option NoOsUartInitParam) (o : InitOracle) :
    InitOutcome :=
  match param with
  | none => initNoEffect (-EINVAL)
  | some p =>
    if p.extraNull then initNoEffect (-EINVAL)
    else if ¬ o.callocDescOk then initNoEffect (-ENOMEM)
    else if ¬ o.callocExtraOk then initErrorDesc (-ENOMEM)
    else if p.parity = UartParity.INVALID then initErrorMax (-EINVAL)
    else if p.size = UartSize.INVALID then initErrorMax (-EINVAL)
    else if p.stop = UartStop.INVALID then initErrorMax (-EINVAL)
    else if p.flow = UartFlow.INVALID then initErrorMax (-EINVAL)
    else if ¬ o.uartInitOk then initErrorMax (-EINVAL)
    else if 2 < p.device_id then initErrorUart (-EINVAL) false false
    else if ¬ o.setDataSizeOk then initErrorUart (-EINVAL) false false
    else if ¬ o.setParityOk then initErrorUart (-EINVAL) false false
    else if ¬ o.setStopBitsOk then initErrorUart (-EINVAL) false false
    else if ¬ o.setFlowCtrlOk then initErrorUart (-EINVAL) false false
    else if ¬ p.asynchronous_rx then
      ⟨0, true, true, false, false, false, false, true,
        ⟨p.device_id, none, req0, false, false, 0⟩⟩
    else if ¬ o.fifoInitOk then initErrorUart (-ENOMEM) true false
    else if ¬ o.irqCtrlInitOk then initErrorUart (-ENOMEM) true true
    else if ¬ o.irqRegisterOk then initErrorNvic (-EINVAL)
    else if ¬ o.irqEnableOk then initErrorNvic (-EINVAL)
    else
      let s := DriverState.mk p.device_id (some ⟨[]⟩) req0 false false 0
      let r := max_uart_read_nonblocking s false (some scratchPtr) 1
      if r.1 ≠ 0 then initErrorNvic r.1
      else ⟨0, true, true, true, true, true, true, true, r.2⟩

/-- Observable outcome of max_uart_remove: return value, whether
MXC_UART_Shutdown ran, which frees happened, and whether the byte queue
was destroyed. -/
structure RemoveOutcome where
  ret : Int
  shutdownCalled : Bool
  extraFreed : Bool
  descFreed : Bool
  fifoDestroyed : Bool
deriving Repr, DecidableEq

/-- Shallow embedding of max_uart_remove: NULL check, hardware shutdown,
free of desc->extra, free of desc.  The source contains no call that
destroys desc->rx_fifo, so fifoDestroyed is false on every path. -/
def max_uart_remove (desc : Option (Option Fifo)) : RemoveOutcome :=
  match desc with
  | none => ⟨-EINVAL, false, false, false, false⟩
  | some _ => ⟨0, true, true, true, false⟩

/-- The shared configuration of the init scenario of the spec: device 0,
baud 115200, 8 data bits, no parity, 1 stop bit, flow control disabled,
asynchronous-receive mode enabled, extra parameters present. -/
def p9 : NoOsUartInitParam :=
  ⟨0, 115200, UartParity.NO, UartSize.CS_8, UartStop.STOP_1,
    UartFlow.DIS, true, false⟩

/-- Oracle on which every collaborator call succeeds. -/
def oracleAllOk : InitOracle :=
  ⟨true, true, true, true, true, true, true, true, true, true, true⟩

/-- Oracle on which everything succeeds except the interrupt-controller
creation (no_os_irq_ctrl_init). -/
def oracleIrqCtrlFail : InitOracle :=
  ⟨true, true, true, true, true, true, true, true, false, true, true⟩

/-- Characterization of the rx_fifo drain loop of max_uart_read: it pops
exactly min bytes_number (queue length) bytes, delivering the oldest
bytes of the queue in order and leaving the rest. -/
theorem readFifoLoop_spec (n : Nat) (f : Fifo) :
    readFifoLoop n f =
      (min n f.buf.length, f.buf.take (min n f.buf.length),
        ⟨f.buf.drop (min n f.buf.length)⟩) := by
  induction n generalizing f with
  | zero => simp [readFifoLoop]
  | succ m ih =>
    match f with
    | ⟨[]⟩ => simp [readFifoLoop, lf256fifo_read]
    | ⟨b :: rest⟩ =>
      simp [readFifoLoop, lf256fifo_read, ih ⟨rest⟩, Nat.succ_min_succ]

/-- C4: on an instance with asynchronous-receive mode enabled (rx_fifo
non-null), a blocking read of positive length drains up to that many
bytes from the byte queue one at a time, stops at the first Empty,
returns the positive count drained when any byte was available, and
returns -EAGAIN exactly when zero bytes were available; no direct
hardware read is issued. -/
theorem max_uart_read_async_drain (f : Fifo) (data : Nat) (n : Nat)
    (hwOk : Bool) (hwBytes : List Nat) (hn : n ≠ 0) :
    (f.buf = [] →
      max_uart_read (some (some f)) (some data) n hwOk hwBytes =
        ⟨-EAGAIN, [], some (some f), false⟩) ∧
    (f.buf ≠ [] →
      0 < min n f.buf.length ∧
      max_uart_read (some (some f)) (some data) n hwOk hwBytes =
        ⟨(min n f.buf.length : Int), f.buf.take (min n f.buf.length),
          some (some ⟨f.buf.drop (min n f.buf.length)⟩), false⟩) := by
  obtain ⟨buf⟩ := f
  constructor
  · intro h
    subst h
    simp [max_uart_read, hn, readFifoLoop_spec]
  · intro h
    have hpos : 0 < min n buf.length := by
      have h1 : 0 < buf.length := List.length_pos.mpr h
      have h2 : 0 < n := Nat.pos_of_ne_zero hn
      omega
    refine ⟨hpos, ?_⟩
    simp only [max_uart_read, readFifoLoop_spec]
    simp [hn, Nat.pos_iff_ne_zero.mp hpos]

/-- C4 witness: draining a queue holding bytes 1 and 2 with a request of
length 5 returns 2 and delivers both bytes in order, and a request on an
empty queue returns -EAGAIN. -/
theorem max_uart_read_async_drain_witness :
    max_uart_read (some (some ⟨[1, 2]⟩)) (some 0) 5 true [] =
      ⟨2, [1, 2], some (some ⟨[]⟩), false⟩ ∧
    max_uart_read (some (some ⟨[]⟩)) (some 0) 5 true [] =
      ⟨-EAGAIN, [], some (some ⟨[]⟩), false⟩ := by
  have h1 := (max_uart_read_async_drain ⟨[1, 2]⟩ 0 5 true [] (by decide)).2
    (by decide)
  have h2 := (max_uart_read_async_drain ⟨[]⟩ 0 5 true [] (by decide)).1 rfl
  exact ⟨by simpa using h1.2, h2⟩

/-- C8: each of the four I/O operations rejects a null descriptor, a
null data buffer, or a zero length with -EINVAL, delivering no bytes,
issuing no hardware action (no direct hardware read, no transmit chunk,
no asynchronous submission) and leaving the driver state untouched. -/
theorem io_invalid_argument_rejection :
    (∀ data n hwOk hwBytes,
      max_uart_read none data n hwOk hwBytes = ⟨-EINVAL, [], none, false⟩) ∧
    (∀ desc n hwOk hwBytes,
      max_uart_read desc none n hwOk hwBytes = ⟨-EINVAL, [], desc, false⟩) ∧
    (∀ desc data hwOk hwBytes,
      max_uart_read desc data 0 hwOk hwBytes = ⟨-EINVAL, [], desc, false⟩) ∧
    (∀ data n hwOk, max_uart_write none data n hwOk = ⟨-EINVAL, none, []⟩) ∧
    (∀ desc n hwOk, max_uart_write desc none n hwOk = ⟨-EINVAL, desc, []⟩) ∧
    (∀ desc data hwOk, max_uart_write desc data 0 hwOk = ⟨-EINVAL, desc, []⟩) ∧
    (∀ s data n, max_uart_read_nonblocking s true data n = (-EINVAL, s)) ∧
    (∀ s b n, max_uart_read_nonblocking s b none n = (-EINVAL, s)) ∧
    (∀ s b data, max_uart_read_nonblocking s b data 0 = (-EINVAL, s)) ∧
    (∀ s data n, max_uart_write_nonblocking s true data n = (-EINVAL, s)) ∧
    (∀ s b n, max_uart_write_nonblocking s b none n = (-EINVAL, s)) ∧
    (∀ s b data, max_uart_write_nonblocking s b data 0 = (-EINVAL, s)) := by
  refine ⟨?_, ?_, ?_, ?_, ?_, ?_, ?_, ?_, ?_, ?_, ?_, ?_⟩ <;>
    intros <;>
    simp [max_uart_read, max_uart_write, max_uart_read_nonblocking,
      max_uart_write_nonblocking]

/-- C6 counterexample: a blocking read on an instance with a non-empty
byte queue (asynchronous-receive mode enabled) does not leave the byte
queue untouched: it advances it. -/
theorem blocking_read_touches_fifo_cex :
    (max_uart_read (some (some ⟨[5]⟩)) (some 1) 1 true []).descAfter ≠
      some (some ⟨[5]⟩) := by decide

/-- C6 amended: blocking write never touches the byte queue for any
input, and blocking read leaves the byte queue untouched exactly in the
configurations where none exists — when asynchronous-receive mode is
disabled (rx_fifo null) it talks to the hardware directly, and a null
descriptor changes nothing; with rx_fifo non-null, blocking read drains
the queue (see the C6 counterexample). -/
theorem blocking_io_fifo_frame :
    (∀ desc data n hwOk, (max_uart_write desc data n hwOk).descAfter = desc) ∧
    (∀ data n hwOk hwBytes,
      (max_uart_read (some none) data n hwOk hwBytes).descAfter = some none) ∧
    (∀ data n hwOk hwBytes,
      (max_uart_read none data n hwOk hwBytes).descAfter = none) := by
  refine ⟨?_, ?_, ?_⟩ <;> intros <;>
    simp only [max_uart_read, max_uart_write] <;> split <;>
    first
      | rfl
      | (split <;> rfl)

/-- C2: on an idle instance (no transaction in flight, caller context), a
non-blocking submission with a valid buffer and positive length is
accepted (returns 0 and moves the instance to in-flight), and a second
non-blocking submission of either direction issued before completion
returns -EBUSY. -/
theorem nonblocking_second_submission_busy (s : DriverState) (d d2 n n2 : Nat)
    (hb : s.hwBusy = false) (hc : s.isCallback = false)
    (hn : n ≠ 0) (hn2 : n2 ≠ 0) :
    ((max_uart_write_nonblocking s false (some d) n).1 = 0 ∧
     (max_uart_write_nonblocking s false (some d) n).2.hwBusy = true ∧
     (max_uart_write_nonblocking
        (max_uart_write_nonblocking s false (some d) n).2
        false (some d2) n2).1 = -EBUSY ∧
     (max_uart_read_nonblocking
        (max_uart_write_nonblocking s false (some d) n).2
        false (some d2) n2).1 = -EBUSY) ∧
    ((max_uart_read_nonblocking s false (some d) n).1 = 0 ∧
     (max_uart_read_nonblocking s false (some d) n).2.hwBusy = true ∧
     (max_uart_read_nonblocking
        (max_uart_read_nonblocking s false (some d) n).2
        false (some d2) n2).1 = -EBUSY ∧
     (max_uart_write_nonblocking
        (max_uart_read_nonblocking s false (some d) n).2
        false (some d2) n2).1 = -EBUSY) := by
  simp [max_uart_write_nonblocking, max_uart_read_nonblocking,
    MXC_UART_TransactionAsync, hb, hc, hn, hn2, E_BUSY, E_SUCCESS, EBUSY]

/-- C2 witness: on the concrete idle state, a first 4-byte
write_nonblocking is accepted and a second 4-byte write_nonblocking
before completion returns -EBUSY. -/
theorem nonblocking_second_submission_busy_witness :
    (max_uart_write_nonblocking st0 false (some 1) 4).1 = 0 ∧
    (max_uart_write_nonblocking
      (max_uart_write_nonblocking st0 false (some 1) 4).2
      false (some 2) 4).1 = -EBUSY := by
  have h := nonblocking_second_submission_busy st0 1 2 4 4 rfl rfl
    (by decide) (by decide)
  exact ⟨h.1.1, h.1.2.2.1⟩

/-- C10: for a valid non-blocking request on a busy instance (in caller
context), the per-instance transaction record is overwritten with the
new request before the busy check, so the call returns -EBUSY and still
leaves the record holding the rejected request's buffer, length, reset
progress counter and callback. -/
theorem nonblocking_overwrites_descriptor_before_busy_check
    (s : DriverState) (d n : Nat) (hn : n ≠ 0)
    (hb : s.hwBusy = true) (hc : s.isCallback = false) :
    ((max_uart_write_nonblocking s false (some d) n).1 = -EBUSY ∧
     (max_uart_write_nonblocking s false (some d) n).2.req =
       { s.req with
           uart := some s.device_id,
           txData := some d, txLen := n,
           rxData := none, rxLen := 0,
           txCnt := 0, hasCallback := true }) ∧
    ((max_uart_read_nonblocking s false (some d) n).1 = -EBUSY ∧
     (max_uart_read_nonblocking s false (some d) n).2.req =
       { s.req with
           uart := some s.device_id,
           rxData := some d, rxLen := n,
           txData := none, txLen := 0,
           rxCnt := 0, hasCallback := true }) := by
  simp [max_uart_write_nonblocking, max_uart_read_nonblocking,
    MXC_UART_TransactionAsync, hb, hc, hn]

/-- C10 witness: on a concrete busy instance, a rejected 4-byte
write_nonblocking returns -EBUSY yet replaces the transaction record
fields with those of the rejected request. -/
theorem nonblocking_overwrites_descriptor_witness :
    (max_uart_write_nonblocking ⟨0, none, req0, true, false, 0⟩
        false (some 1) 4).1 = -EBUSY ∧
    (max_uart_write_nonblocking ⟨0, none, req0, true, false, 0⟩
        false (some 1) 4).2.req =
      { req0 with
          uart := some 0,
          txData := some 1, txLen := 4,
          rxData := none, rxLen := 0,
          txCnt := 0, hasCallback := true } := by
  exact (nonblocking_overwrites_descriptor_before_busy_check
    ⟨0, none, req0, true, false, 0⟩ 1 4 (by decide) rfl rfl).1

/-- C3: when a one-byte receive completes on an instance in
asynchronous-receive mode (rx_fifo non-null, queue not full, caller
context flag clear), the completion handler appends the received byte at
the tail of the byte queue and immediately re-submits a one-byte receive
into the scratch buffer, leaving the instance in-flight again with no
caller involvement. -/
theorem uart_rx_callback_pushes_and_resubmits (s : DriverState) (f : Fifo)
    (b : Nat) (hf : s.rxFifo = some f) (hc : s.isCallback = false)
    (hcap : f.buf.length < fifoCapacity) :
    (on_rx_complete s b).rxFifo = some ⟨f.buf ++ [b]⟩ ∧
    (on_rx_complete s b).hwBusy = true ∧
    (on_rx_complete s b).req.rxLen = 1 ∧
    (on_rx_complete s b).req.rxData = some scratchPtr ∧
    (on_rx_complete s b).req.rxCnt = 0 := by
  simp [on_rx_complete, uart_rx_callback, hf, lf256fifo_write, hcap,
    max_uart_read_nonblocking, MXC_UART_TransactionAsync, hc,
    E_BUSY, E_SUCCESS]

/-- C3 witness: a completion delivering byte 7 on a concrete in-flight
instance with an empty queue leaves the queue holding 7 and a fresh
one-byte receive in flight. -/
theorem uart_rx_callback_pushes_and_resubmits_witness :
    (on_rx_complete ⟨0, some ⟨[]⟩, req0, true, false, 0⟩ 7).rxFifo =
        some ⟨[7]⟩ ∧
    (on_rx_complete ⟨0, some ⟨[]⟩, req0, true, false, 0⟩ 7).hwBusy = true ∧
    (on_rx_complete ⟨0, some ⟨[]⟩, req0, true, false, 0⟩ 7).req.rxLen = 1 := by
  have h := uart_rx_callback_pushes_and_resubmits
    ⟨0, some ⟨[]⟩, req0, true, false, 0⟩ ⟨[]⟩ 7 rfl rfl (by decide)
  exact ⟨h.1, h.2.1, h.2.2.1⟩

/-- C7: when a one-byte receive completes while the byte queue is at full
capacity, the byte is dropped with no error surfaced to any caller (the
handler returns no status and the push result is discarded), the queue
contents are unchanged and a subsequent blocking read retrieves exactly
the prior contents in their original order; the refill loop still
re-submits a one-byte receive. -/
theorem rx_overrun_drops_byte_preserves_queue (s : DriverState) (f : Fifo)
    (b : Nat) (hf : s.rxFifo = some f) (hc : s.isCallback = false)
    (hfull : f.buf.length = fifoCapacity) :
    (on_rx_complete s b).rxFifo = some f ∧
    (on_rx_complete s b).hwBusy = true ∧
    (on_rx_complete s b).req.rxLen = 1 ∧
    (max_uart_read (some (on_rx_complete s b).rxFifo) (some 0)
        f.buf.length true []).delivered = f.buf ∧
    (max_uart_read (some (on_rx_complete s b).rxFifo) (some 0)
        f.buf.length true []).ret = (f.buf.length : Int) := by
  have hnotlt : ¬ f.buf.length < fifoCapacity := by omega
  have hfifo : (on_rx_complete s b).rxFifo = some f := by
    simp [on_rx_complete, uart_rx_callback, hf, lf256fifo_write, hnotlt,
      max_uart_read_nonblocking, MXC_UART_TransactionAsync, hc,
      E_BUSY, E_SUCCESS]
  have hlen : f.buf.length ≠ 0 := by
    simp only [fifoCapacity] at hfull
    omega
  refine ⟨hfifo, ?_, ?_, ?_, ?_⟩
  · simp [on_rx_complete, uart_rx_callback, hf, lf256fifo_write, hnotlt,
      max_uart_read_nonblocking, MXC_UART_TransactionAsync, hc,
      E_BUSY, E_SUCCESS]
  · simp [on_rx_complete, uart_rx_callback, hf, lf256fifo_write, hnotlt,
      max_uart_read_nonblocking, MXC_UART_TransactionAsync, hc,
      E_BUSY, E_SUCCESS]
  · rw [hfifo]
    simp [max_uart_read, hlen, readFifoLoop_spec]
  · rw [hfifo]
    simp [max_uart_read, hlen, readFifoLoop_spec]

/-- C7 witness: on a concrete instance whose queue holds 256 copies of
byte 3, a completion delivering byte 9 leaves the queue unchanged, still
fully retrievable, and a one-byte receive re-submitted. -/
theorem rx_overrun_drops_byte_preserves_queue_witness :
    (on_rx_complete
        ⟨0, some ⟨List.replicate 256 3⟩, req0, true, false, 0⟩ 9).rxFifo =
      some ⟨List.replicate 256 3⟩ ∧
    (on_rx_complete
        ⟨0, some ⟨List.replicate 256 3⟩, req0, true, false, 0⟩ 9).hwBusy =
      true := by
  have hcap : (Fifo.mk (List.replicate 256 3)).buf.length = fifoCapacity := by
    rw [List.length_replicate, fifoCapacity]
  have h := rx_overrun_drops_byte_preserves_queue
    ⟨0, some ⟨List.replicate 256 3⟩, req0, true, false, 0⟩
    ⟨List.replicate 256 3⟩ 9 rfl rfl hcap
  exact ⟨h.1, h.2.1⟩

/-- C1: evaluation of init at a failing execution (asynchronous-receive
configuration, interrupt-controller creation fails after the byte queue
was created) showing that cleanup is incomplete: the call fails, yet the
byte queue it allocated is still allocated when it returns, and the
caller's output descriptor pointer was already assigned even though the
descriptor memory has been freed, so partial initialization is
observable. -/
theorem max_uart_init_failure_leaks_fifo_and_outdesc :
    (max_uart_init (some p9) oracleIrqCtrlFail).ret = -ENOMEM ∧
    (max_uart_init (some p9) oracleIrqCtrlFail).descAllocated = false ∧
    (max_uart_init (some p9) oracleIrqCtrlFail).extraAllocated = false ∧
    (max_uart_init (some p9) oracleIrqCtrlFail).fifoAllocated = true ∧
    (max_uart_init (some p9) oracleIrqCtrlFail).outDescAssigned = true := by
  decide

/-- C5: evaluation of remove on an instance whose rx_fifo is non-null
(asynchronous-receive mode was enabled at init): remove succeeds, shuts
the hardware down and frees the extra state and the descriptor, but
never destroys the byte queue created at init. -/
theorem max_uart_remove_does_not_destroy_fifo :
    max_uart_remove (some (some ⟨[]⟩)) = ⟨0, true, true, true, false⟩ ∧
    max_uart_remove none = ⟨-EINVAL, false, false, false, false⟩ := by
  decide

/-- C9: init with asynchronous-receive mode enabled, baud 115200, 8 data
bits, no parity, 1 stop bit, flow control disabled, all collaborators
succeeding, returns 0, assigns the output descriptor handle, leaves the
instance allocated, and exactly one one-byte receive transfer (into the
scratch byte) is in flight against the hardware at the moment init
returns. -/
theorem max_uart_init_async_success_scenario :
    (max_uart_init (some p9) oracleAllOk).ret = 0 ∧
    (max_uart_init (some p9) oracleAllOk).outDescAssigned = true ∧
    (max_uart_init (some p9) oracleAllOk).descAllocated = true ∧
    (max_uart_init (some p9) oracleAllOk).extraAllocated = true ∧
    (max_uart_init (some p9) oracleAllOk).fifoAllocated = true ∧
    (max_uart_init (some p9) oracleAllOk).st.hwBusy = true ∧
    (max_uart_init (some p9) oracleAllOk).st.req.rxLen = 1 ∧
    (max_uart_init (some p9) oracleAllOk).st.req.rxData = some scratchPtr ∧
    (max_uart_init (some p9) oracleAllOk).st.rxFifo = some ⟨[]⟩ := by
  decide

end MaximUart
